import Mathlib

/-!
Shallow embedding of the behavioral authentication engine implemented in
`src/behavioral-auth-engine/src/core/enhanced_faiss_engine.py`.

Conventions of the embedding:

* Behavioral vectors are lists of rationals (`Vec`).  The Python code works
  with numpy float arrays; all the constants involved (0.1, 0.6, 0.8, ...)
  are exact in ℚ.
* numpy's square root (used inside `np.linalg.norm` and `np.std`) is an
  external numeric library, not code of this repository; it is modelled by
  an explicit parameter `sq : ℚ → ℚ` threaded through the definitions.
  Every property proved below holds for an arbitrary `sq`.
* The MD5 digest from `hashlib` is likewise external and is modelled by a
  parameter `md5hex : String → String`; where a property needs the digest
  contract (32 hex characters) it is an explicit hypothesis.
* The Supabase database is modelled inside `EngineState`: the
  `enhanced_behavioral_vectors` table as `db_vectors`, the `user_profiles`
  table as `db_phases` (only the `current_phase` column is ever read), and
  every *attempted* insert into `enhanced_behavioral_vectors` is recorded in
  the trace `db_puts` (tagged by vector type) whether or not it succeeds.
  Database calls that can fail transiently take a `Bool` flag: `true` means
  the call succeeds, `false` means it raises and the surrounding
  `try/except` of the Python code takes effect.
* Python mutates the `UserVectorProfile` object held in the
  `self.user_profiles` dict; the model passes the profile cache
  (`assoc` list) explicitly and writes updated profiles back where the code
  mutates them.
-/

/-- A behavioral feature vector (`np.ndarray` in the source). -/
abbrev Vec := List ℚ

/-- Scalar multiplication, `alpha * vector` in numpy. -/
def vecScale (c : ℚ) (v : Vec) : Vec := v.map (fun x => c * x)

/-- Elementwise sum of two vectors (numpy `+`). -/
def vecAdd (a b : Vec) : Vec := List.zipWith (fun x y => x + y) a b

/-- `np.dot` of two vectors. -/
def dotProduct (a b : Vec) : ℚ := (List.zipWith (fun x y => x * y) a b).sum

/-- Squared L2 norm: `np.linalg.norm(v)` is `sq (normSq v)`. -/
def normSq (v : Vec) : ℚ := dotProduct v v

/-- `np.sum(np.abs(v))`, the degeneracy check of the mobile pipeline. -/
def sumAbs (v : Vec) : ℚ := (v.map (fun x => abs x)).sum

/-- `_normalize_vector`: return `v` unchanged when its norm is zero and
`v / norm` otherwise.  The square root inside `np.linalg.norm` is the
external parameter `sq`. -/
def normalize_vector (sq : ℚ → ℚ) (v : Vec) : Vec :=
  let n := sq (normSq v)
  if n = 0 then v else v.map (fun x => x / n)

/-- `np.clip(x, -1.0, 1.0)`. -/
def clip (x : ℚ) : ℚ := min (max x (-1)) 1

/-- `_calculate_cosine_similarity`.  The second argument is `Optional`
because `_analyze_full_auth_phase` calls it with a possibly absent baseline
(`None`); numpy raises on `None` and the `except` branch of the source
returns `0.0`. -/
def calculate_cosine_similarity (sq : ℚ → ℚ) (v1 : Vec) (v2 : Option Vec) : ℚ :=
  match v2 with
  | none => 0
  | some b => clip (dotProduct (normalize_vector sq v1) (normalize_vector sq b))

/-- Result of `_calculate_vector_stats`.  Field names follow the keys of the
Python dict (`min`/`max` are spelled `vmin`/`vmax`). -/
structure VectorStats where
  length : Nat
  non_zero_count : Nat
  zero_count : Nat
  non_zero_percentage : ℚ
  mean : ℚ
  std : ℚ
  vmin : ℚ
  vmax : ℚ
  is_meaningful : Bool
deriving DecidableEq

/-- `_calculate_vector_stats`; `np.std` is the square root (`sq`) of the
variance. -/
def calculate_vector_stats (sq : ℚ → ℚ) (v : Vec) : VectorStats :=
  let n := v.length
  let nz := (v.filter (fun x => x != 0)).length
  let mean := v.sum / (n : ℚ)
  let variance := ((v.map (fun x => (x - mean) * (x - mean))).sum) / (n : ℚ)
  { length := n
    non_zero_count := nz
    zero_count := n - nz
    non_zero_percentage := (nz : ℚ) / (n : ℚ) * 100
    mean := mean
    std := sq variance
    vmin := v.foldl min (v.headD 0)
    vmax := v.foldl max (v.headD 0)
    is_meaningful := decide ((nz : ℚ) > (n : ℚ) * (1 / 10)) }

/-- Python slicing `s[a:b]` on strings. -/
def strSlice (s : String) (a b : Nat) : String := String.mk ((s.data.drop a).take (b - a))

/-- A hexadecimal digit, the alphabet of an MD5 hex digest. -/
def isHexChar (c : Char) : Bool :=
  c.isDigit || (decide ('a' <= c) && decide (c <= 'f')) || (decide ('A' <= c) && decide (c <= 'F'))

/-- `_generate_uuid_from_string`: MD5-hash the input and lay the 32 hex
digits out as an 8-4-4-4-12 UUID string.  `md5hex` is `hashlib`'s hex
digest, an external dependency. -/
def generate_uuid_from_string (md5hex : String → String) (input_str : String) : String :=
  let hex_dig := md5hex input_str
  strSlice hex_dig 0 8 ++ "-" ++ strSlice hex_dig 8 12 ++ "-" ++ strSlice hex_dig 12 16 ++
    "-" ++ strSlice hex_dig 16 20 ++ "-" ++ strSlice hex_dig 20 32

/-- One entry of the `similar_vectors` list produced by
`_find_similar_vectors` (`vtype` is the dict key `type`). -/
structure SimilarVector where
  similarity : ℚ
  index : Nat
  vtype : String
deriving DecidableEq

/-- `VectorAnalysisResult` dataclass. -/
structure VectorAnalysisResult where
  similarity_score : ℚ
  confidence : ℚ
  decision : String
  risk_level : String
  risk_factors : List String
  similar_vectors : List SimilarVector
  vector_id : Option String := none
  session_vector : Option Vec := none
  vector_stats : Option VectorStats := none
deriving DecidableEq

/-- `UserVectorProfile` dataclass.  `session_vectors` is dropped: the source
initializes it to `[]` and never appends to it.  Timestamps are modelled as
natural numbers supplied by the caller as `now`. -/
structure UserVectorProfile where
  user_id : String
  cumulative_vector : Vec
  baseline_vector : Option Vec
  vector_count : Nat
  last_updated : Nat
  learning_phase : String
deriving DecidableEq

/-- A row of the `enhanced_behavioral_vectors` table, keeping the columns the
engine reads back (`metadata.vector_count` for cumulative rows). -/
structure DbVectorRecord where
  user_id : String
  vector_type : String
  vector_data : Vec
  vector_count_meta : Option Nat
deriving DecidableEq

/-- The engine plus its database, as one explicit state.  `db_puts` is the
trace of attempted `enhanced_behavioral_vectors` inserts (by vector type);
an attempt is recorded even when the insert fails. -/
structure EngineState where
  vector_dimension : Nat
  user_profiles : List (String × UserVectorProfile)
  session_index : List Vec
  cumulative_index : List Vec
  baseline_index : List Vec
  db_phases : List (String × String)
  db_vectors : List DbVectorRecord
  db_puts : List String
deriving DecidableEq

/-- First-match association-list lookup (Python dict read / `limit(1)` row). -/
def assocGet {α : Type} (c : List (String × α)) (k : String) : Option α :=
  match c with
  | [] => none
  | (k', v) :: rest => if k' = k then some v else assocGet rest k

/-- Association-list write; prepending shadows any earlier binding, which
matches dict assignment as observed through `assocGet`. -/
def assocSet {α : Type} (c : List (String × α)) (k : String) (v : α) : List (String × α) :=
  (k, v) :: c

/-- `self.similarity_thresholds['learning']` (defined but unused policy). -/
def similarity_thresholds_learning : ℚ := 3 / 10

/-- `self.similarity_thresholds['gradual_risk']`. -/
def similarity_thresholds_gradual_risk : ℚ := 6 / 10

/-- `self.similarity_thresholds['full_auth']`. -/
def similarity_thresholds_full_auth : ℚ := 8 / 10

/-- Insert into a list sorted by descending similarity; an earlier element
stays in front of later ones with the same score (FAISS ties resolve to the
lower insertion index). -/
def insertDesc (x : ℚ × Nat) : List (ℚ × Nat) → List (ℚ × Nat)
  | [] => [x]
  | y :: ys => if y.1 ≤ x.1 then x :: y :: ys else y :: insertDesc x ys

/-- Exhaustive inner-product search order of `faiss.IndexFlatIP`: all stored
vectors sorted by descending dot product with the query. -/
def sortDesc : List (ℚ × Nat) → List (ℚ × Nat)
  | [] => []
  | x :: xs => insertDesc x (sortDesc xs)

/-- `_find_similar_vectors`: search the cumulative FAISS index with the
normalized query for `min(k, ntotal)` neighbours, then keep at most `k`. -/
def find_similar_vectors (sq : ℚ → ℚ) (cumulative_index : List Vec)
    (query_vector : Vec) (k : Nat) : List SimilarVector :=
  if 0 < cumulative_index.length then
    let query_normalized := normalize_vector sq query_vector
    let scored := (cumulative_index.enum).map (fun p => (dotProduct query_normalized p.2, p.1))
    (((sortDesc scored).take (min k cumulative_index.length)).map
      (fun p => { similarity := p.1, index := p.2, vtype := "cumulative" })).take k
  else []

/-- `_analyze_learning_phase`.  The guard `cumulative_vector is not None`
of the source is always true in the model (the profile constructor never
stores `None` there), so only `vector_count > 0` remains. -/
def analyze_learning_phase (sq : ℚ → ℚ) (cumulative_index : List Vec)
    (session_vector : Vec) (user_profile : UserVectorProfile) : VectorAnalysisResult :=
  if 0 < user_profile.vector_count then
    { similarity_score := calculate_cosine_similarity sq session_vector (some user_profile.cumulative_vector)
      confidence := min (8 / 10) ((user_profile.vector_count : ℚ) / 5)
      decision := "learn"
      risk_level := "low"
      risk_factors := ["Learning phase - collecting behavioral data",
        "Compared with " ++ toString user_profile.vector_count ++ " previous sessions"]
      similar_vectors := (find_similar_vectors sq cumulative_index session_vector 5).take 3 }
  else
    { similarity_score := 0
      confidence := 1 / 5
      decision := "learn"
      risk_level := "low"
      risk_factors := ["First session - no baseline for comparison"]
      similar_vectors := [] }

/-- `_analyze_gradual_phase`. -/
def analyze_gradual_phase (sq : ℚ → ℚ) (session_vector : Vec)
    (user_profile : UserVectorProfile) : VectorAnalysisResult :=
  if user_profile.vector_count < 3 then
    { similarity_score := 8 / 10
      confidence := 6 / 10
      decision := "learn"
      risk_level := "low"
      risk_factors := ["Insufficient data - continue learning"]
      similar_vectors := [] }
  else
    let similarity := calculate_cosine_similarity sq session_vector (some user_profile.cumulative_vector)
    let threshold := similarity_thresholds_gradual_risk
    let dec :=
      if threshold ≤ similarity then ("allow", "low", ["Vector matches user profile"])
      else if threshold * (7 / 10) ≤ similarity then
        ("challenge", "medium", ["Moderate deviation from profile"])
      else ("block", "high", ["Significant deviation from profile"])
    { similarity_score := similarity
      confidence := min (8 / 10) ((user_profile.vector_count : ℚ) / 10)
      decision := dec.1
      risk_level := dec.2.1
      risk_factors := dec.2.2
      similar_vectors := [] }

/-- `_create_baseline_vector`: a no-op below 10 sessions; otherwise attempt
the database insert (recorded in `db_puts`) and, only when it succeeds, set
the profile's baseline to a copy of the cumulative vector, write the profile
back to the cache (the source mutates the cached object), and append to the
baseline FAISS index.  A failing insert is swallowed by the `except`. -/
def create_baseline_vector (dbOk : Bool) (st : EngineState) (user_id : String)
    (p : UserVectorProfile) : UserVectorProfile × EngineState :=
  if p.vector_count < 10 then (p, st)
  else
    let baseline := p.cumulative_vector
    let st1 := { st with db_puts := st.db_puts ++ ["baseline"] }
    if dbOk then
      let p' := { p with baseline_vector := some baseline }
      (p', { st1 with
        db_vectors := st1.db_vectors ++ [⟨user_id, "baseline", baseline, none⟩]
        baseline_index := st1.baseline_index ++ [baseline]
        user_profiles := assocSet st1.user_profiles user_id p' })
    else (p, st1)

/-- `_analyze_full_auth_phase`.  When the profile has no baseline the source
first calls `_create_baseline_vector` (which can leave the baseline absent),
then compares against baseline and cumulative, taking the larger cosine. -/
def analyze_full_auth_phase (sq : ℚ → ℚ) (dbOk : Bool) (st : EngineState)
    (user_id : String) (session_vector : Vec) (p : UserVectorProfile) :
    VectorAnalysisResult × EngineState :=
  let created := if p.baseline_vector.isNone then create_baseline_vector dbOk st user_id p else (p, st)
  let p2 := created.1
  let st2 := created.2
  let baseline_similarity := calculate_cosine_similarity sq session_vector p2.baseline_vector
  let cumulative_similarity := calculate_cosine_similarity sq session_vector (some p2.cumulative_vector)
  let similarity := max baseline_similarity cumulative_similarity
  let threshold := similarity_thresholds_full_auth
  let similar := find_similar_vectors sq st2.cumulative_index session_vector 5
  let dec :=
    if threshold ≤ similarity then ("allow", "low", ["Strong match with user profile"])
    else if threshold * (8 / 10) ≤ similarity then
      ("challenge", "medium", ["Moderate similarity to profile"])
    else ("block", "high", ["Low similarity to established profile"])
  ({ similarity_score := similarity
     confidence := 9 / 10
     decision := dec.1
     risk_level := dec.2.1
     risk_factors := dec.2.2
     similar_vectors := similar }, st2)

/-- The profile `_analyze_full_auth_phase` actually compares against: the
input profile after the conditional `_create_baseline_vector` call. -/
def full_auth_effective_profile (dbOk : Bool) (st : EngineState) (user_id : String)
    (p : UserVectorProfile) : UserVectorProfile :=
  (if p.baseline_vector.isNone then create_baseline_vector dbOk st user_id p else (p, st)).1

/-- `_update_cumulative_vector`.  Blocked sessions return immediately; a user
without a cached profile returns immediately; otherwise the exponential
moving average with `alpha = 0.1` is normalized, the cached profile is
replaced, the insert is attempted (trace `"cumulative"`), and the cumulative
FAISS index is appended to on both the success path and the
database-failure fallback path of the source. -/
def update_cumulative_vector (sq : ℚ → ℚ) (md5hex : String → String) (dbOk : Bool)
    (st : EngineState) (user_id : String) (session_vector : Vec) (decision : String)
    (now : Nat) : EngineState :=
  if decision = "block" then st
  else
    match assocGet st.user_profiles user_id with
    | none => st
    | some p =>
      let user_uuid := generate_uuid_from_string md5hex user_id
      let alpha : ℚ := 1 / 10
      let new_cumulative :=
        if p.vector_count = 0 then session_vector
        else vecAdd (vecScale (1 - alpha) p.cumulative_vector) (vecScale alpha session_vector)
      let new_cumulative := normalize_vector sq new_cumulative
      let p' := { p with
        cumulative_vector := new_cumulative
        vector_count := p.vector_count + 1
        last_updated := now }
      let st1 := { st with
        user_profiles := assocSet st.user_profiles user_id p'
        db_puts := st.db_puts ++ ["cumulative"] }
      if dbOk then
        { st1 with
          db_vectors := st1.db_vectors ++ [⟨user_uuid, "cumulative", new_cumulative, some p'.vector_count⟩]
          cumulative_index := st1.cumulative_index ++ [new_cumulative] }
      else
        { st1 with cumulative_index := st1.cumulative_index ++ [new_cumulative] }

/-- Folding a sequence of `(session_vector, decision)` pairs through
`_update_cumulative_vector`, in order. -/
def applySessions (sq : ℚ → ℚ) (md5hex : String → String) (dbOk : Bool) (now : Nat) :
    EngineState → String → List (Vec × String) → EngineState
  | st, _, [] => st
  | st, user_id, s :: rest =>
    applySessions sq md5hex dbOk now
      (update_cumulative_vector sq md5hex dbOk st user_id s.1 s.2 now) user_id rest

/-- `_update_user_learning_phase`: write the phase to the `user_profiles`
table and, if that write did not raise, mirror it into the cached profile. -/
def update_user_learning_phase (dbOk : Bool) (st : EngineState)
    (user_id new_phase : String) : EngineState :=
  if dbOk then
    let st1 := { st with db_phases := assocSet st.db_phases user_id new_phase }
    match assocGet st1.user_profiles user_id with
    | some p =>
      { st1 with user_profiles := assocSet st1.user_profiles user_id { p with learning_phase := new_phase } }
    | none => st1
  else st

/-- `_check_learning_phase_transition`.  Reads the cached profile and the
`user_profiles` row (keyed by the raw user id, as in the source); promotes
learning → gradual_risk at 5 vectors and gradual_risk → full_auth at 10,
calling `_create_baseline_vector` before the phase update in the second
case.  Note that a failed baseline insert does not stop the phase update. -/
def check_learning_phase_transition (baselineOk phaseOk : Bool) (st : EngineState)
    (user_id : String) : EngineState :=
  match assocGet st.user_profiles user_id with
  | none => st
  | some p =>
    match assocGet st.db_phases user_id with
    | none => st
    | some current_phase =>
      if current_phase = "learning" ∧ 5 ≤ p.vector_count then
        update_user_learning_phase phaseOk st user_id "gradual_risk"
      else if current_phase = "gradual_risk" ∧ 10 ≤ p.vector_count then
        let created := create_baseline_vector baselineOk st user_id p
        update_user_learning_phase phaseOk created.2 user_id "full_auth"
      else st

/-- One raw behavioral event of the mobile payload (only its presence and
`event_type` field are ever consulted by the engine). -/
structure LogEvent where
  event_type : String
deriving DecidableEq

/-- `_store_session_vector_mobile`.  An insert is always attempted (trace
`"session"`), and every fallback branch of the source still appends the
vector to the session FAISS index; the branches differ only in the returned
id (`local_*` when the database could not take the row). -/
def store_session_vector_mobile (md5hex : String → String) (dbOk : Bool)
    (st : EngineState) (user_id session_id : String) (v : Vec) :
    Option String × EngineState :=
  let user_uuid := generate_uuid_from_string md5hex user_id
  let st1 := { st with db_puts := st.db_puts ++ ["session"] }
  if dbOk then
    (some ("db_" ++ session_id),
      { st1 with
        db_vectors := st1.db_vectors ++ [⟨user_uuid, "session", v, none⟩]
        session_index := st1.session_index ++ [v] })
  else
    (some ("local_" ++ user_id ++ "_" ++ session_id),
      { st1 with session_index := st1.session_index ++ [v] })

/-- `_get_or_create_user_profile`: cache hit, or load the latest cumulative
and baseline rows (keyed by the generated UUID) plus the current phase, or a
zero default when `loadOk = false` (the transient-failure `except` branch). -/
def get_or_create_user_profile (md5hex : String → String) (loadOk : Bool)
    (st : EngineState) (user_id : String) (now : Nat) : UserVectorProfile × EngineState :=
  match assocGet st.user_profiles user_id with
  | some p => (p, st)
  | none =>
    if loadOk then
      let user_uuid := generate_uuid_from_string md5hex user_id
      let cumRec := (st.db_vectors.filter
        (fun r => r.user_id == user_uuid && r.vector_type == "cumulative")).getLast?
      let cumulative_vector :=
        match cumRec with
        | some r => r.vector_data
        | none => List.replicate st.vector_dimension (0 : ℚ)
      let vector_count :=
        match cumRec with
        | some r => r.vector_count_meta.getD 1
        | none => 0
      let baseRec := (st.db_vectors.filter
        (fun r => r.user_id == user_uuid && r.vector_type == "baseline")).getLast?
      let baseline_vector := baseRec.map (fun r => r.vector_data)
      let learning_phase := (assocGet st.db_phases user_uuid).getD "learning"
      let p : UserVectorProfile :=
        { user_id := user_id
          cumulative_vector := cumulative_vector
          baseline_vector := baseline_vector
          vector_count := vector_count
          last_updated := now
          learning_phase := learning_phase }
      (p, { st with user_profiles := assocSet st.user_profiles user_id p })
    else
      let p : UserVectorProfile :=
        { user_id := user_id
          cumulative_vector := List.replicate st.vector_dimension (0 : ℚ)
          baseline_vector := none
          vector_count := 0
          last_updated := now
          learning_phase := "learning" }
      (p, { st with user_profiles := assocSet st.user_profiles user_id p })

/-- Per-call database success flags for the mobile pipeline. -/
structure DbFlags where
  storeOk : Bool := true
  loadOk : Bool := true
  cumulativeOk : Bool := true
  baselineOk : Bool := true
deriving DecidableEq

/-- `process_mobile_behavioral_data`, the non-raising path: empty-logs guard,
feature extraction (the external `EnhancedBehavioralProcessor`, modelled by
the parameter `extract`), normalization, the all-zero short-circuit, session
storage, profile load, per-phase analysis, and the cumulative update. -/
def process_mobile_behavioral_data (sq : ℚ → ℚ) (md5hex : String → String)
    (extract : List LogEvent → Vec) (flags : DbFlags) (st : EngineState)
    (user_id session_id : String) (logs : List LogEvent) (learning_phase : String)
    (now : Nat) : VectorAnalysisResult × EngineState :=
  if logs.isEmpty then
    ({ similarity_score := 0, confidence := 1 / 2, decision := "learn", risk_level := "medium"
       risk_factors := ["No behavioral data provided"], similar_vectors := [] }, st)
  else
    let session_vector := normalize_vector sq (extract logs)
    let stats := calculate_vector_stats sq session_vector
    if sumAbs session_vector = 0 then
      ({ similarity_score := 0, confidence := 3 / 10, decision := "learn", risk_level := "medium"
         risk_factors := ["Invalid behavioral vector generated"], similar_vectors := []
         vector_id := none, session_vector := some session_vector
         vector_stats := some stats }, st)
    else
      let stored := store_session_vector_mobile md5hex flags.storeOk st user_id session_id session_vector
      let loaded := get_or_create_user_profile md5hex flags.loadOk stored.2 user_id now
      let user_profile := loaded.1
      let st2 := loaded.2
      let analyzed :=
        if learning_phase = "learning" then
          (analyze_learning_phase sq st2.cumulative_index session_vector user_profile, st2)
        else if learning_phase = "gradual_risk" then
          (analyze_gradual_phase sq session_vector user_profile, st2)
        else
          analyze_full_auth_phase sq flags.baselineOk st2 user_id session_vector user_profile
      let result0 := analyzed.1
      let st4 := update_cumulative_vector sq md5hex flags.cumulativeOk analyzed.2 user_id
        session_vector result0.decision now
      ({ result0 with
          vector_id := stored.1
          session_vector := some session_vector
          vector_stats := some stats }, st4)

/-- The fallback result of the `except` handler of `process_behavioral_data`. -/
def process_error_result : VectorAnalysisResult :=
  { similarity_score := 0, confidence := 1 / 2, decision := "learn", risk_level := "medium"
    risk_factors := ["Processing error"], similar_vectors := [] }

/-- The fallback result of the `except` handler of
`process_mobile_behavioral_data` (`e` is the stringified exception). -/
def mobile_process_error_result (e : String) : VectorAnalysisResult :=
  { similarity_score := 0, confidence := 1 / 2, decision := "learn", risk_level := "medium"
    risk_factors := ["Processing error: " ++ e], similar_vectors := [] }

/-- The result the caller of `process_mobile_behavioral_data` sees, with the
surrounding `try/except`: `fault = some e` means an exception `e` escaped
the body, and the handler substitutes the fallback result. -/
def process_mobile_behavioral_data_result (fault : Option String) (sq : ℚ → ℚ)
    (md5hex : String → String) (extract : List LogEvent → Vec) (flags : DbFlags)
    (st : EngineState) (user_id session_id : String) (logs : List LogEvent)
    (learning_phase : String) (now : Nat) : VectorAnalysisResult :=
  match fault with
  | some e => mobile_process_error_result e
  | none => (process_mobile_behavioral_data sq md5hex extract flags st user_id session_id
      logs learning_phase now).1

/-- A square-root stand-in that is exact on the squared norms 0 and 1 used by
the concrete witnesses below. -/
def sqId : ℚ → ℚ := fun x => x

/-- An MD5 stand-in satisfying the 32-hex-character digest contract. -/
def md5stub : String → String := fun _ => "0123456789abcdef0123456789abcdef"

/-- Extractor stand-in producing a degenerate all-zero vector. -/
def zeroExtract : List LogEvent → Vec := fun _ => [0, 0, 0, 0]

/-- Fresh engine state with dimension 4 and an empty database. -/
def emptyState : EngineState :=
  { vector_dimension := 4, user_profiles := [], session_index := [], cumulative_index := []
    baseline_index := [], db_phases := [], db_vectors := [], db_puts := [] }

/-- A cached profile with no sessions folded in yet. -/
def pEmptyCached : UserVectorProfile :=
  { user_id := "u", cumulative_vector := [0, 0, 0, 0], baseline_vector := none
    vector_count := 0, last_updated := 0, learning_phase := "learning" }

/-- Engine state whose cache holds `pEmptyCached`. -/
def stCached0 : EngineState := { emptyState with user_profiles := [("u", pEmptyCached)] }

/-- A gradual-phase profile with 10 sessions and no baseline. -/
def pGradual10 : UserVectorProfile :=
  { user_id := "u", cumulative_vector := [1, 0, 0, 0], baseline_vector := none
    vector_count := 10, last_updated := 0, learning_phase := "gradual_risk" }

/-- State for the phase-transition scenarios: `pGradual10` cached and the
database row showing phase `gradual_risk`. -/
def stGradual10 : EngineState :=
  { emptyState with user_profiles := [("u", pGradual10)], db_phases := [("u", "gradual_risk")] }

/-- A gradual-phase profile with 5 sessions. -/
def pCount5 : UserVectorProfile :=
  { user_id := "u", cumulative_vector := [1, 0, 0, 0], baseline_vector := none
    vector_count := 5, last_updated := 0, learning_phase := "gradual_risk" }

/-- A full-auth profile with 10 sessions and no baseline yet. -/
def pFull10 : UserVectorProfile :=
  { user_id := "u", cumulative_vector := [1, 0, 0, 0], baseline_vector := none
    vector_count := 10, last_updated := 0, learning_phase := "full_auth" }

/-- A full-auth profile with only 2 sessions and no baseline. -/
def pFullNoBase : UserVectorProfile :=
  { user_id := "u", cumulative_vector := [1, 0, 0, 0], baseline_vector := none
    vector_count := 2, last_updated := 0, learning_phase := "full_auth" }

/-- Engine state whose cache holds `pFullNoBase`. -/
def stFullNoBase : EngineState := { emptyState with user_profiles := [("u", pFullNoBase)] }

/-- All database calls succeed. -/
def allOk : DbFlags := {}

theorem assocGet_assocSet_same {α : Type} (c : List (String × α)) (k : String) (v : α) :
    assocGet (assocSet c k v) k = some v := by
  simp [assocGet, assocSet]

/-- A non-blocked update for a cached profile rewrites the cache entry with
the normalized EMA and an incremented count. -/
theorem update_cumulative_cached (sq : ℚ → ℚ) (md5hex : String → String) (dbOk : Bool)
    (st : EngineState) (user_id : String) (v : Vec) (d : String) (now : Nat)
    (p : UserVectorProfile) (hd : d ≠ "block")
    (hp : assocGet st.user_profiles user_id = some p) :
    assocGet (update_cumulative_vector sq md5hex dbOk st user_id v d now).user_profiles user_id =
      some { p with
        cumulative_vector := normalize_vector sq (if p.vector_count = 0 then v
          else vecAdd (vecScale (1 - 1 / 10) p.cumulative_vector) (vecScale (1 / 10) v))
        vector_count := p.vector_count + 1
        last_updated := now } := by
  unfold update_cumulative_vector
  rw [if_neg hd, hp]
  cases dbOk <;> simp [assocGet_assocSet_same]

/-- Folding non-blocked sessions through the cumulative update adds exactly
the number of sessions to the cached vector count. -/
theorem applySessions_count (sq : ℚ → ℚ) (md5hex : String → String) (dbOk : Bool) (now : Nat) :
    ∀ (sessions : List (Vec × String)) (st : EngineState) (user_id : String)
      (p : UserVectorProfile),
      (∀ s ∈ sessions, Prod.snd s ≠ "block") →
      assocGet st.user_profiles user_id = some p →
      ∃ p', assocGet (applySessions sq md5hex dbOk now st user_id sessions).user_profiles user_id
          = some p'
        ∧ p'.vector_count = p.vector_count + sessions.length := by
  intro sessions
  induction sessions with
  | nil =>
    intro st u p _ hp
    exact ⟨p, by simpa [applySessions] using hp, by simp⟩
  | cons s rest ih =>
    intro st u p hblk hp
    have hstep := update_cumulative_cached sq md5hex dbOk st u s.1 s.2 now p
      (hblk s (by simp)) hp
    obtain ⟨p', h1, h2⟩ := ih (update_cumulative_vector sq md5hex dbOk st u s.1 s.2 now) u _
      (fun t ht => hblk t (by simp [ht])) hstep
    refine ⟨p', by simpa [applySessions] using h1, ?_⟩
    simp at h2
    simp [h2]
    omega

/-- C2: a cumulative update invoked with decision `block` returns without any
modification: the whole engine state, in particular the profile's
cumulative vector and vector count, is unchanged. -/
theorem claim2_blocked_session_is_noop (sq : ℚ → ℚ) (md5hex : String → String)
    (dbOk : Bool) (st : EngineState) (user_id : String) (session_vector : Vec) (now : Nat) :
    update_cumulative_vector sq md5hex dbOk st user_id session_vector "block" now = st := by
  simp [update_cumulative_vector]

/-- C10: for a user whose profile is not in the in-memory cache,
`_update_cumulative_vector` is a no-op for every decision, including
non-block ones: the state is returned unchanged. -/
theorem claim10_uncached_user_is_noop (sq : ℚ → ℚ) (md5hex : String → String)
    (dbOk : Bool) (st : EngineState) (user_id : String) (session_vector : Vec)
    (decision : String) (now : Nat)
    (h : assocGet st.user_profiles user_id = none) :
    update_cumulative_vector sq md5hex dbOk st user_id session_vector decision now = st := by
  unfold update_cumulative_vector
  rw [h]
  simp

/-- Witness for C10 at a concrete uncached user with a non-block decision. -/
theorem claim10_witness :
    update_cumulative_vector sqId md5stub true emptyState "u" [1, 0, 0, 0] "allow" 0 = emptyState :=
  claim10_uncached_user_is_noop sqId md5stub true emptyState "u" [1, 0, 0, 0] "allow" 0 rfl

/-- C3: for a cached profile and a non-block decision the cumulative update
stores `normalize(session)` when the count was 0 and the normalized EMA
`0.9 * cumulative + 0.1 * session` otherwise, and increments the count by
exactly one; consequently, after a sequence of n non-blocked sessions
starting from an empty cached profile, the count is n. -/
theorem claim3_cumulative_update_and_count :
    (∀ (sq : ℚ → ℚ) (md5hex : String → String) (dbOk : Bool) (st : EngineState)
      (user_id : String) (v : Vec) (d : String) (now : Nat) (p : UserVectorProfile),
      d ≠ "block" → assocGet st.user_profiles user_id = some p →
      assocGet (update_cumulative_vector sq md5hex dbOk st user_id v d now).user_profiles user_id =
        some { p with
          cumulative_vector := normalize_vector sq (if p.vector_count = 0 then v
            else vecAdd (vecScale (1 - 1 / 10) p.cumulative_vector) (vecScale (1 / 10) v))
          vector_count := p.vector_count + 1
          last_updated := now })
    ∧ (∀ (sq : ℚ → ℚ) (md5hex : String → String) (dbOk : Bool) (now : Nat)
      (st : EngineState) (user_id : String) (sessions : List (Vec × String))
      (p : UserVectorProfile),
      (∀ s ∈ sessions, Prod.snd s ≠ "block") →
      assocGet st.user_profiles user_id = some p → p.vector_count = 0 →
      ∃ p', assocGet (applySessions sq md5hex dbOk now st user_id sessions).user_profiles user_id
          = some p'
        ∧ p'.vector_count = sessions.length) := by
  constructor
  · exact update_cumulative_cached
  · intro sq md5hex dbOk now st u sessions p hb hp h0
    obtain ⟨p', h1, h2⟩ := applySessions_count sq md5hex dbOk now sessions st u p hb hp
    exact ⟨p', h1, by omega⟩

/-- Witness for C3: one allowed session on a fresh cached profile yields
count 1. -/
theorem claim3_witness :
    (assocGet (update_cumulative_vector sqId md5stub true stCached0 "u" [1, 0, 0, 0]
        "allow" 7).user_profiles "u").map (fun q => q.vector_count) = some 1 := by
  rw [claim3_cumulative_update_and_count.1 sqId md5stub true stCached0 "u" [1, 0, 0, 0]
    "allow" 7 pEmptyCached (by decide) rfl]
  rfl

/-- C8: when an exception escapes the processing body, the handler returns
the fallback result, whose decision is `learn` and never `allow`; the
non-mobile handler's constant result likewise. -/
theorem claim8_error_fallback_never_allows (fault : Option String) (sq : ℚ → ℚ)
    (md5hex : String → String) (extract : List LogEvent → Vec) (flags : DbFlags)
    (st : EngineState) (user_id session_id : String) (logs : List LogEvent)
    (learning_phase : String) (now : Nat) (e : String) (h : fault = some e) :
    process_mobile_behavioral_data_result fault sq md5hex extract flags st user_id session_id
        logs learning_phase now = mobile_process_error_result e
    ∧ (process_mobile_behavioral_data_result fault sq md5hex extract flags st user_id session_id
        logs learning_phase now).decision = "learn"
    ∧ (process_mobile_behavioral_data_result fault sq md5hex extract flags st user_id session_id
        logs learning_phase now).decision ≠ "allow"
    ∧ process_error_result.decision = "learn"
    ∧ process_error_result.decision ≠ "allow" := by
  subst h
  refine ⟨rfl, rfl, ?_, rfl, by decide⟩
  show ("learn" : String) ≠ "allow"
  decide

/-- Witness for C8 at a concrete fault. -/
theorem claim8_witness :
    process_mobile_behavioral_data_result (some "boom") sqId md5stub zeroExtract allOk
      emptyState "u" "s" [] "learning" 0 = mobile_process_error_result "boom" :=
  (claim8_error_fallback_never_allows (some "boom") sqId md5stub zeroExtract allOk
    emptyState "u" "s" [] "learning" 0 "boom" rfl).1

/-- C9: the internal id map is deterministic, and whenever the digest obeys
the MD5 contract (32 hex characters) the output is a canonical 8-4-4-4-12
hexadecimal string (hence a formatted 128-bit identifier). -/
theorem claim9_uuid_mapping (md5hex : String → String) (u v : String)
    (hlen : (md5hex u).data.length = 32)
    (hhex : ∀ c ∈ (md5hex u).data, isHexChar c = true) :
    (u = v → generate_uuid_from_string md5hex u = generate_uuid_from_string md5hex v)
    ∧ ∃ a b c d e : String,
        generate_uuid_from_string md5hex u = a ++ "-" ++ b ++ "-" ++ c ++ "-" ++ d ++ "-" ++ e
        ∧ a.data.length = 8 ∧ b.data.length = 4 ∧ c.data.length = 4 ∧ d.data.length = 4
        ∧ e.data.length = 12
        ∧ (∀ ch ∈ a.data, isHexChar ch = true) ∧ (∀ ch ∈ b.data, isHexChar ch = true)
        ∧ (∀ ch ∈ c.data, isHexChar ch = true) ∧ (∀ ch ∈ d.data, isHexChar ch = true)
        ∧ (∀ ch ∈ e.data, isHexChar ch = true) := by
  refine ⟨fun h => by rw [h], strSlice (md5hex u) 0 8, strSlice (md5hex u) 8 12,
    strSlice (md5hex u) 12 16, strSlice (md5hex u) 16 20, strSlice (md5hex u) 20 32,
    rfl, ?_, ?_, ?_, ?_, ?_, ?_, ?_, ?_, ?_, ?_⟩
  · simp [strSlice, hlen]
  · simp [strSlice, hlen]
  · simp [strSlice, hlen]
  · simp [strSlice, hlen]
  · simp [strSlice, hlen]
  · intro ch hch
    exact hhex ch (List.mem_of_mem_drop (List.mem_of_mem_take hch))
  · intro ch hch
    exact hhex ch (List.mem_of_mem_drop (List.mem_of_mem_take hch))
  · intro ch hch
    exact hhex ch (List.mem_of_mem_drop (List.mem_of_mem_take hch))
  · intro ch hch
    exact hhex ch (List.mem_of_mem_drop (List.mem_of_mem_take hch))
  · intro ch hch
    exact hhex ch (List.mem_of_mem_drop (List.mem_of_mem_take hch))

/-- Witness for C9 with a digest stand-in satisfying the contract. -/
theorem claim9_witness :
    ∃ a b c d e : String,
      generate_uuid_from_string md5stub "user" = a ++ "-" ++ b ++ "-" ++ c ++ "-" ++ d ++ "-" ++ e
      ∧ a.data.length = 8 ∧ b.data.length = 4 ∧ c.data.length = 4 ∧ d.data.length = 4
      ∧ e.data.length = 12
      ∧ (∀ ch ∈ a.data, isHexChar ch = true) ∧ (∀ ch ∈ b.data, isHexChar ch = true)
      ∧ (∀ ch ∈ c.data, isHexChar ch = true) ∧ (∀ ch ∈ d.data, isHexChar ch = true)
      ∧ (∀ ch ∈ e.data, isHexChar ch = true) :=
  (claim9_uuid_mapping md5stub "user" "user" (by decide) (by decide)).2

/-- C1 (amended): the gradual → full_auth transition attempts baseline
creation before the phase update; when the baseline write succeeds the
promoted profile carries the cumulative vector as baseline, but when the
baseline write fails the phase is advanced anyway, leaving the baseline
as it was (possibly absent). -/
theorem claim1_transition_advances_despite_baseline_failure (baselineOk phaseOk : Bool)
    (st : EngineState) (u : String) (p : UserVectorProfile)
    (hc : assocGet st.user_profiles u = some p)
    (hph : assocGet st.db_phases u = some "gradual_risk")
    (hn : 10 ≤ p.vector_count) :
    (baselineOk = true → phaseOk = true →
      assocGet (check_learning_phase_transition baselineOk phaseOk st u).user_profiles u =
        some { p with baseline_vector := some p.cumulative_vector,
                      learning_phase := "full_auth" })
    ∧ (baselineOk = false → phaseOk = true →
      assocGet (check_learning_phase_transition baselineOk phaseOk st u).user_profiles u =
        some { p with learning_phase := "full_auth" }) := by
  constructor
  · rintro rfl rfl
    simp only [check_learning_phase_transition, hc, hph]
    rw [if_neg (by simp), if_pos ⟨trivial, hn⟩]
    simp only [create_baseline_vector, update_user_learning_phase]
    rw [if_neg (show ¬ p.vector_count < 10 by omega)]
    simp [assocGet_assocSet_same]
  · rintro rfl rfl
    simp only [check_learning_phase_transition, hc, hph]
    rw [if_neg (by simp), if_pos ⟨trivial, hn⟩]
    simp only [create_baseline_vector, update_user_learning_phase]
    rw [if_neg (show ¬ p.vector_count < 10 by omega)]
    simp [assocGet_assocSet_same, hc]

/-- Counterexample to C1 as stated: with 10 sessions in gradual_risk and a
failing baseline insert, the transition still advances the cached phase to
full_auth while the baseline stays absent — so a FullAuth profile without a
baseline vector is reachable. -/
theorem claim1_counterexample :
    (assocGet (check_learning_phase_transition false true stGradual10 "u").user_profiles "u").map
      (fun q => (q.learning_phase, q.baseline_vector)) = some ("full_auth", none) := by
  rfl

/-- Witness for C1 (amended) on the success path at a concrete state. -/
theorem claim1_witness :
    assocGet (check_learning_phase_transition true true stGradual10 "u").user_profiles "u" =
      some { pGradual10 with baseline_vector := some pGradual10.cumulative_vector,
                             learning_phase := "full_auth" } :=
  (claim1_transition_advances_despite_baseline_failure true true stGradual10 "u" pGradual10
    rfl rfl (by decide)).1 rfl rfl

/-- C4: the gradual-phase policy: with fewer than 3 vectors a fixed learn
result (similarity 0.8, confidence 0.6); otherwise decisions by the cosine
thresholds 0.6 and 0.42 = 0.6·0.7 and confidence min(0.8, count/10). -/
theorem claim4_gradual_phase_policy (sq : ℚ → ℚ) (v : Vec) (p : UserVectorProfile) :
    (p.vector_count < 3 →
      analyze_gradual_phase sq v p =
        { similarity_score := 8 / 10, confidence := 6 / 10, decision := "learn",
          risk_level := "low", risk_factors := ["Insufficient data - continue learning"],
          similar_vectors := [] })
    ∧ (3 ≤ p.vector_count →
      (analyze_gradual_phase sq v p).similarity_score
          = calculate_cosine_similarity sq v (some p.cumulative_vector)
      ∧ (analyze_gradual_phase sq v p).confidence
          = min (8 / 10) ((p.vector_count : ℚ) / 10)
      ∧ (6 / 10 ≤ calculate_cosine_similarity sq v (some p.cumulative_vector) →
          (analyze_gradual_phase sq v p).decision = "allow"
          ∧ (analyze_gradual_phase sq v p).risk_level = "low")
      ∧ (42 / 100 ≤ calculate_cosine_similarity sq v (some p.cumulative_vector)
          ∧ calculate_cosine_similarity sq v (some p.cumulative_vector) < 6 / 10 →
          (analyze_gradual_phase sq v p).decision = "challenge"
          ∧ (analyze_gradual_phase sq v p).risk_level = "medium")
      ∧ (calculate_cosine_similarity sq v (some p.cumulative_vector) < 42 / 100 →
          (analyze_gradual_phase sq v p).decision = "block"
          ∧ (analyze_gradual_phase sq v p).risk_level = "high")) := by
  have he : similarity_thresholds_gradual_risk * (7 / 10) = 42 / 100 := by
    norm_num [similarity_thresholds_gradual_risk]
  constructor
  · intro h
    unfold analyze_gradual_phase
    rw [if_pos h]
  · intro h
    simp only [analyze_gradual_phase]
    rw [if_neg (show ¬ p.vector_count < 3 by omega)]
    set s := calculate_cosine_similarity sq v (some p.cumulative_vector) with hs
    refine ⟨rfl, rfl, ?_, ?_, ?_⟩
    · intro h1
      rw [if_pos (show similarity_thresholds_gradual_risk ≤ s from h1)]
      exact ⟨rfl, rfl⟩
    · rintro ⟨h1, h2⟩
      rw [if_neg (not_le.mpr (show s < similarity_thresholds_gradual_risk from h2))]
      rw [if_pos (show similarity_thresholds_gradual_risk * (7 / 10) ≤ s from by
        rw [he]; exact h1)]
      exact ⟨rfl, rfl⟩
    · intro h3
      have h6 : (42 : ℚ) / 100 < 6 / 10 := by norm_num
      rw [if_neg (not_le.mpr (show s < similarity_thresholds_gradual_risk from by
        simp only [similarity_thresholds_gradual_risk]; linarith))]
      rw [if_neg (not_le.mpr (show s < similarity_thresholds_gradual_risk * (7 / 10) from by
        rw [he]; exact h3))]
      exact ⟨rfl, rfl⟩

/-- Witness for C4: five sessions and a perfectly matching vector give an
allow decision. -/
theorem claim4_witness :
    (analyze_gradual_phase sqId [1, 0, 0, 0] pCount5).decision = "allow" := by
  refine (((claim4_gradual_phase_policy sqId [1, 0, 0, 0] pCount5).2 (by decide)).2.2.1 ?_).1
  norm_num [calculate_cosine_similarity, normalize_vector, dotProduct, normSq, clip,
    sqId, pCount5, min_def, max_def]

/-- Every similar-vector entry produced by `_find_similar_vectors` is tagged
as coming from the cumulative index. -/
theorem find_similar_vectors_vtype (sq : ℚ → ℚ) (idx : List Vec) (q : Vec) (k : Nat) :
    ∀ x ∈ find_similar_vectors sq idx q k, x.vtype = "cumulative" := by
  intro x hx
  unfold find_similar_vectors at hx
  split_ifs at hx with h
  · have hx1 := List.mem_of_mem_take hx
    obtain ⟨a, -, rfl⟩ := List.mem_map.1 hx1
    rfl
  · simp at hx

/-- C6: the learning-phase policy: with no folded sessions the fixed first
result (similarity 0, confidence 0.2, the first-session risk factor);
otherwise learn with the cosine to the cumulative vector, confidence
min(0.8, count/5), and at most 3 similar vectors from the cumulative
index. -/
theorem claim6_learning_phase_policy (sq : ℚ → ℚ) (cumulative_index : List Vec)
    (v : Vec) (p : UserVectorProfile) :
    (p.vector_count = 0 →
      analyze_learning_phase sq cumulative_index v p =
        { similarity_score := 0, confidence := 1 / 5, decision := "learn", risk_level := "low",
          risk_factors := ["First session - no baseline for comparison"],
          similar_vectors := [] })
    ∧ (0 < p.vector_count →
      (analyze_learning_phase sq cumulative_index v p).decision = "learn"
      ∧ (analyze_learning_phase sq cumulative_index v p).similarity_score
          = calculate_cosine_similarity sq v (some p.cumulative_vector)
      ∧ (analyze_learning_phase sq cumulative_index v p).confidence
          = min (8 / 10) ((p.vector_count : ℚ) / 5)
      ∧ (analyze_learning_phase sq cumulative_index v p).similar_vectors.length ≤ 3
      ∧ ∀ x ∈ (analyze_learning_phase sq cumulative_index v p).similar_vectors,
          x.vtype = "cumulative") := by
  constructor
  · intro h
    unfold analyze_learning_phase
    rw [if_neg (show ¬ 0 < p.vector_count by omega)]
  · intro h
    unfold analyze_learning_phase
    rw [if_pos h]
    refine ⟨rfl, rfl, rfl, ?_, ?_⟩
    · exact List.length_take_le 3 _
    · intro x hx
      exact find_similar_vectors_vtype sq cumulative_index v 5 x (List.mem_of_mem_take hx)

/-- Witness for C6 on the empty-profile branch. -/
theorem claim6_witness :
    analyze_learning_phase sqId [] [1, 0, 0, 0] pEmptyCached =
      { similarity_score := 0, confidence := 1 / 5, decision := "learn", risk_level := "low",
        risk_factors := ["First session - no baseline for comparison"],
        similar_vectors := [] } :=
  (claim6_learning_phase_policy sqId [] [1, 0, 0, 0] pEmptyCached).1 rfl

/-- The first component of `_create_baseline_vector` never changes the
cumulative vector. -/
theorem create_baseline_vector_fst_cumulative (dbOk : Bool) (st : EngineState)
    (u : String) (p : UserVectorProfile) :
    (create_baseline_vector dbOk st u p).1.cumulative_vector = p.cumulative_vector := by
  unfold create_baseline_vector
  split_ifs <;> rfl

/-- C5 (amended): in the full-auth analysis, baseline creation is only
*attempted* for a profile lacking one — it succeeds (setting the baseline to
the cumulative vector) exactly when the profile has at least 10 vectors and
the write succeeds, and otherwise the baseline stays absent, its cosine
contributing 0; the decision follows the thresholds 0.8 and 0.64 = 0.8·0.8
on the larger of the two cosines, with confidence 0.9. -/
theorem claim5_full_auth_policy (sq : ℚ → ℚ) (dbOk : Bool) (st : EngineState)
    (u : String) (v : Vec) (p : UserVectorProfile) :
    (analyze_full_auth_phase sq dbOk st u v p).1.confidence = 9 / 10
    ∧ (analyze_full_auth_phase sq dbOk st u v p).1.similarity_score =
        max (calculate_cosine_similarity sq v
              (full_auth_effective_profile dbOk st u p).baseline_vector)
            (calculate_cosine_similarity sq v (some p.cumulative_vector))
    ∧ (8 / 10 ≤ (analyze_full_auth_phase sq dbOk st u v p).1.similarity_score →
        (analyze_full_auth_phase sq dbOk st u v p).1.decision = "allow"
        ∧ (analyze_full_auth_phase sq dbOk st u v p).1.risk_level = "low")
    ∧ (64 / 100 ≤ (analyze_full_auth_phase sq dbOk st u v p).1.similarity_score
        ∧ (analyze_full_auth_phase sq dbOk st u v p).1.similarity_score < 8 / 10 →
        (analyze_full_auth_phase sq dbOk st u v p).1.decision = "challenge"
        ∧ (analyze_full_auth_phase sq dbOk st u v p).1.risk_level = "medium")
    ∧ ((analyze_full_auth_phase sq dbOk st u v p).1.similarity_score < 64 / 100 →
        (analyze_full_auth_phase sq dbOk st u v p).1.decision = "block"
        ∧ (analyze_full_auth_phase sq dbOk st u v p).1.risk_level = "high")
    ∧ (p.baseline_vector = none → p.vector_count < 10 →
        (full_auth_effective_profile dbOk st u p).baseline_vector = none)
    ∧ (p.baseline_vector = none → 10 ≤ p.vector_count → dbOk = true →
        (full_auth_effective_profile dbOk st u p).baseline_vector = some p.cumulative_vector)
    ∧ (∀ b, p.baseline_vector = some b →
        (full_auth_effective_profile dbOk st u p).baseline_vector = some b) := by
  have hEdef : (if p.baseline_vector.isNone then create_baseline_vector dbOk st u p
      else (p, st)).1 = full_auth_effective_profile dbOk st u p := rfl
  have hcum : (full_auth_effective_profile dbOk st u p).cumulative_vector
      = p.cumulative_vector := by
    unfold full_auth_effective_profile
    split_ifs
    · exact create_baseline_vector_fst_cumulative dbOk st u p
    · rfl
  have he2 : similarity_thresholds_full_auth * (8 / 10) = 64 / 100 := by
    norm_num [similarity_thresholds_full_auth]
  have h6 : (64 : ℚ) / 100 < 8 / 10 := by norm_num
  simp only [analyze_full_auth_phase]
  rw [hEdef, hcum]
  set s := max (calculate_cosine_similarity sq v
      (full_auth_effective_profile dbOk st u p).baseline_vector)
    (calculate_cosine_similarity sq v (some p.cumulative_vector)) with hs
  refine ⟨trivial, rfl, ?_, ?_, ?_, ?_, ?_, ?_⟩
  · intro h1
    rw [if_pos (show similarity_thresholds_full_auth ≤ s from h1)]
    exact ⟨rfl, rfl⟩
  · rintro ⟨h1, h2⟩
    rw [if_neg (not_le.mpr (show s < similarity_thresholds_full_auth from h2))]
    rw [if_pos (show similarity_thresholds_full_auth * (8 / 10) ≤ s from by
      rw [he2]; exact h1)]
    exact ⟨rfl, rfl⟩
  · intro h3
    rw [if_neg (not_le.mpr (show s < similarity_thresholds_full_auth from by
      simp only [similarity_thresholds_full_auth]; linarith))]
    rw [if_neg (not_le.mpr (show s < similarity_thresholds_full_auth * (8 / 10) from by
      rw [he2]; exact h3))]
    exact ⟨rfl, rfl⟩
  · intro hb hcount
    simp [full_auth_effective_profile, create_baseline_vector, hb, hcount]
  · intro hb hcount hdb
    subst hdb
    simp [full_auth_effective_profile, create_baseline_vector, hb,
      show ¬ p.vector_count < 10 by omega]
  · intro b hb
    simp [full_auth_effective_profile, hb]

/-- Counterexample to C5 as stated: a profile analyzed in full_auth with no
baseline and fewer than 10 vectors gets *no* baseline created — the whole
engine state is returned unchanged and the profile still lacks a
baseline. -/
theorem claim5_counterexample :
    (analyze_full_auth_phase sqId true stFullNoBase "u" [1, 0, 0, 0] pFullNoBase).2
      = stFullNoBase
    ∧ pFullNoBase.baseline_vector = none :=
  ⟨rfl, rfl⟩

/-- Witness for C5 (amended): with 10 vectors, a successful write and a
matching session vector, the decision is allow. -/
theorem claim5_witness :
    (analyze_full_auth_phase sqId true emptyState "u" [1, 0, 0, 0] pFull10).1.decision
      = "allow" := by
  have h := claim5_full_auth_policy sqId true emptyState "u" [1, 0, 0, 0] pFull10
  refine (h.2.2.1 ?_).1
  rw [h.2.1]
  have hb := h.2.2.2.2.2.2.1 rfl (by decide) rfl
  rw [hb]
  norm_num [calculate_cosine_similarity, normalize_vector, dotProduct, normSq, clip, sqId,
    pFull10, min_def, max_def]

/-- C7 (amended): when the extracted session vector is all-zero (and logs are
present) the mobile pipeline short-circuits with the learn result
(confidence 0.3, the invalid-vector risk factor, the vector and its stats
attached) and returns with the engine state untouched — in particular no
attempt is made to store the session record. -/
theorem claim7_degenerate_vector_short_circuits (sq : ℚ → ℚ) (md5hex : String → String)
    (extract : List LogEvent → Vec) (flags : DbFlags) (st : EngineState)
    (user_id session_id : String) (logs : List LogEvent) (learning_phase : String)
    (now : Nat) (hlogs : logs ≠ [])
    (hzero : sumAbs (normalize_vector sq (extract logs)) = 0) :
    process_mobile_behavioral_data sq md5hex extract flags st user_id session_id logs
        learning_phase now =
      ({ similarity_score := 0, confidence := 3 / 10, decision := "learn",
         risk_level := "medium", risk_factors := ["Invalid behavioral vector generated"],
         similar_vectors := [], vector_id := none,
         session_vector := some (normalize_vector sq (extract logs)),
         vector_stats := some (calculate_vector_stats sq
           (normalize_vector sq (extract logs))) }, st) := by
  have hne : ¬ logs.isEmpty = true := by
    cases logs with
    | nil => exact absurd rfl hlogs
    | cons a as => simp
  simp only [process_mobile_behavioral_data]
  rw [if_neg hne, if_pos hzero]

/-- Counterexample to C7 as stated: on an all-zero extraction the pipeline
returns the learn result but the database-insert trace stays empty — no
store of the session record is attempted before returning. -/
theorem claim7_counterexample :
    (process_mobile_behavioral_data sqId md5stub zeroExtract allOk emptyState "u" "s"
        [{ event_type := "touch" }] "learning" 0).2.db_puts = []
    ∧ (process_mobile_behavioral_data sqId md5stub zeroExtract allOk emptyState "u" "s"
        [{ event_type := "touch" }] "learning" 0).1.risk_factors
        = ["Invalid behavioral vector generated"]
    ∧ (process_mobile_behavioral_data sqId md5stub zeroExtract allOk emptyState "u" "s"
        [{ event_type := "touch" }] "learning" 0).1.confidence = 3 / 10 := by
  refine ⟨?_, ?_, ?_⟩ <;>
    norm_num [process_mobile_behavioral_data, zeroExtract, normalize_vector, normSq,
      dotProduct, sumAbs, emptyState, sqId]

/-- Witness for C7 (amended) at a concrete degenerate extraction. -/
theorem claim7_witness :
    process_mobile_behavioral_data sqId md5stub zeroExtract allOk emptyState "u" "s"
        [{ event_type := "touch" }] "learning" 0 =
      ({ similarity_score := 0, confidence := 3 / 10, decision := "learn",
         risk_level := "medium", risk_factors := ["Invalid behavioral vector generated"],
         similar_vectors := [], vector_id := none,
         session_vector := some (normalize_vector sqId
           (zeroExtract [{ event_type := "touch" }])),
         vector_stats := some (calculate_vector_stats sqId
           (normalize_vector sqId (zeroExtract [{ event_type := "touch" }]))) },
       emptyState) :=
  claim7_degenerate_vector_short_circuits sqId md5stub zeroExtract allOk emptyState "u" "s"
    [{ event_type := "touch" }] "learning" 0 (by simp)
    (by norm_num [zeroExtract, normalize_vector, normSq, dotProduct, sumAbs, sqId])
